import Mathlib

/-!
Shallow embedding of the authorization / membership core of the
`expensify-kilocode` repository: the permission registry and role matrix
(`src/server/permissions.ts`), the `authorize` gate
(`src/server/api/trpc.ts`, as reproduced in the architecture document),
the organization router (`src/server/api/routers/organization.ts`) and the
user-management router (`src/server/api/routers/user-management.ts`).

Databases are modelled as an explicit `Store` value; Prisma queries become
pure functions over it; a thrown `TRPCError` becomes the error branch of
`Except` (a throw aborts the procedure before any write, so an error
result carries no new store: the caller keeps the unchanged one).
-/

/-- `UserRole` Prisma enum: the two roles of the system. -/
inductive UserRole where
  | ADMIN
  | MEMBER
deriving DecidableEq, Repr

/-- The `PERMISSIONS` constant of `permissions.ts`: the closed registry of
permission tokens, in source order. -/
def PERMISSIONS : List String :=
  [ "org:view", "org:update", "org:delete",
    "member:view", "member:invite", "member:update_role", "member:remove",
    "expense:create", "expense:view_own", "expense:view_all",
    "expense:update_own", "expense:update_all",
    "expense:delete_own", "expense:delete_all",
    "policy:view", "policy:create", "policy:update", "policy:delete" ]

/-- `ROLE_PERMISSIONS` of `permissions.ts`: the role → permission-list
table, each list in source order. -/
def ROLE_PERMISSIONS : UserRole → List String
  | .ADMIN =>
    [ "org:view", "org:update", "org:delete",
      "member:view", "member:invite", "member:update_role", "member:remove",
      "expense:create", "expense:view_own", "expense:view_all",
      "expense:update_own", "expense:update_all",
      "expense:delete_own", "expense:delete_all",
      "policy:view", "policy:create", "policy:update", "policy:delete" ]
  | .MEMBER =>
    [ "org:view",
      "member:view",
      "expense:create", "expense:view_own", "expense:update_own",
      "expense:delete_own",
      "policy:view" ]

/-- `hasPermission` of `permissions.ts`:
`ROLE_PERMISSIONS[role]?.includes(permission) ?? false`.  The `Option`
argument models the JavaScript runtime, where `role` may be `undefined`
or otherwise miss the record (the `?.` / `?? false` defence). -/
def hasPermission (role : Option UserRole) (permission : String) : Bool :=
  match role with
  | some r => (ROLE_PERMISSIONS r).contains permission
  | none => false

/-- `hasAnyPermission` of `permissions.ts`:
`permissions.some(p => hasPermission(role, p))`. -/
def hasAnyPermission (role : Option UserRole) (permissions : List String) : Bool :=
  permissions.any (fun permission => hasPermission role permission)

/-- `hasAllPermissions` of `permissions.ts`:
`permissions.every(p => hasPermission(role, p))`. -/
def hasAllPermissions (role : Option UserRole) (permissions : List String) : Bool :=
  permissions.all (fun permission => hasPermission role permission)

/-- `getRolePermissions` of `permissions.ts`:
`ROLE_PERMISSIONS[role] ?? []`. -/
def getRolePermissions (role : Option UserRole) : List String :=
  match role with
  | some r => ROLE_PERMISSIONS r
  | none => []

/-- A row of the `Organization` Prisma model (the attributes the core
reads: id, name, unique slug). -/
structure Organization where
  id : String
  name : String
  slug : String
deriving DecidableEq, Repr

/-- A row of the `UserOrganization` Prisma model: the membership relation,
keyed by the composite (userId, organizationId), carrying the role and the
creation timestamp that `orderBy createdAt asc` sorts on. -/
structure UserOrganization where
  userId : String
  organizationId : String
  role : UserRole
  createdAt : Nat
deriving DecidableEq, Repr

/-- The persisted state the procedures read and write: the organization
table and the membership table. -/
structure Store where
  organizations : List Organization
  memberships : List UserOrganization
deriving DecidableEq, Repr

/-- TRPC error codes used by the core. -/
inductive ErrorCode where
  | FORBIDDEN
  | NOT_FOUND
  | CONFLICT
deriving DecidableEq, Repr

/-- A `TRPCError`: code plus message, as thrown by the procedures. -/
structure TRPCError where
  code : ErrorCode
  message : String
deriving DecidableEq, Repr

/-- `db.userOrganization.findUnique` on the composite key
`userId_organizationId`: the unique row for the pair, if any. -/
def findMembership (db : Store) (userId organizationId : String) : Option UserOrganization :=
  db.memberships.find? (fun m => m.userId == userId && m.organizationId == organizationId)

/-- `getUserRole(userId, organizationId, db)` used by `authorize`: the
caller's role in the organization, or `none` when no membership row
exists. -/
def getUserRole (db : Store) (userId organizationId : String) : Option UserRole :=
  (findMembership db userId organizationId).map (fun m => m.role)

/-- The `Permission | Permission[]` argument of `authorize`; `toList`
models the `Array.isArray` normalisation. -/
inductive PermissionArg where
  | single (p : String)
  | list (ps : List String)
deriving DecidableEq, Repr

def PermissionArg.toList : PermissionArg → List String
  | .single p => [p]
  | .list ps => ps

/-- `authorize` of `src/server/api/trpc.ts` (reproduced in the
architecture document): resolve the caller's role; absent → FORBIDDEN
not-a-member; then require at least one of the requested permissions
(`permissions.some(...)`); missing → FORBIDDEN no-permission; success
returns the resolved role. -/
def authorize (db : Store) (userId organizationId : String)
    (requiredPermissions : PermissionArg) : Except TRPCError UserRole :=
  match getUserRole db userId organizationId with
  | none =>
    .error ⟨.FORBIDDEN, "You are not a member of this organization"⟩
  | some userRole =>
    if requiredPermissions.toList.any (fun permission => hasPermission (some userRole) permission)
    then .ok userRole
    else .error ⟨.FORBIDDEN, "You don\x27t have permission to perform this action"⟩

/-- `organizationRouter.getUserRoleInOrganization`: look up the caller's
own membership row; absent → NOT_FOUND; present → its role. -/
def getUserRoleInOrganization (db : Store) (callerId organizationId : String) :
    Except TRPCError UserRole :=
  match findMembership db callerId organizationId with
  | none => .error ⟨.NOT_FOUND, "User is not a member of this organization"⟩
  | some userOrganization => .ok userOrganization.role

/-- `db.userOrganization.count` filtered on the organization and
`role: ADMIN`. -/
def countAdmins (db : Store) (organizationId : String) : Nat :=
  (db.memberships.filter
    (fun m => m.organizationId == organizationId && m.role == UserRole.ADMIN)).length

/-- `db.userOrganization.update` on the composite key: rewrite the role of
the matching row, leaving every other row unchanged. -/
def updateMembershipRole (db : Store) (userId organizationId : String)
    (role : UserRole) : Store :=
  { db with
    memberships := db.memberships.map
      (fun m =>
        if m.userId == userId && m.organizationId == organizationId
        then { m with role := role } else m) }

/-- `db.userOrganization.delete` on the composite key: remove the matching
row. -/
def deleteMembership (db : Store) (userId organizationId : String) : Store :=
  { db with
    memberships := db.memberships.filter
      (fun m => !(m.userId == userId && m.organizationId == organizationId)) }

/-- `userManagementRouter.updateUserRole`: authorize the actor for
`member:update_role`; require the target membership row to exist
(NOT_FOUND otherwise); block demoting the last admin (FORBIDDEN); else
apply the role change, returning the updated row and the new store. -/
def updateUserRole (db : Store) (actorId userId organizationId : String)
    (role : UserRole) : Except TRPCError (Store × UserOrganization) := do
  let _ ← authorize db actorId organizationId (.single "member:update_role")
  match findMembership db userId organizationId with
  | none =>
    .error ⟨.NOT_FOUND, "User is not a member of this organization"⟩
  | some targetUserOrg =>
    if targetUserOrg.role == UserRole.ADMIN && role != UserRole.ADMIN then
      if countAdmins db organizationId ≤ 1 then
        .error ⟨.FORBIDDEN, "Cannot remove the last admin from an organization"⟩
      else
        .ok (updateMembershipRole db userId organizationId role,
             { targetUserOrg with role := role })
    else
      .ok (updateMembershipRole db userId organizationId role,
           { targetUserOrg with role := role })

/-- `userManagementRouter.removeUserFromOrganization`: authorize the actor
for `member:remove`; require the target membership row to exist
(NOT_FOUND otherwise); block removing the last admin (FORBIDDEN); else
delete the row ( `return \x7b success: true \x7d` becomes the new store). -/
def removeUserFromOrganization (db : Store) (actorId userId organizationId : String) :
    Except TRPCError Store := do
  let _ ← authorize db actorId organizationId (.single "member:remove")
  match findMembership db userId organizationId with
  | none =>
    .error ⟨.NOT_FOUND, "User is not a member of this organization"⟩
  | some targetUserOrg =>
    if targetUserOrg.role == UserRole.ADMIN then
      if countAdmins db organizationId ≤ 1 then
        .error ⟨.FORBIDDEN, "Cannot remove the last admin from an organization"⟩
      else
        .ok (deleteMembership db userId organizationId)
    else
      .ok (deleteMembership db userId organizationId)

/-- `organizationRouter.create`: reject a taken slug (CONFLICT); then, in
one `$transaction`, insert the organization and the founder's ADMIN
membership.  `newId` stands for the generated cuid and `now` for the
insertion timestamp; a uniqueness violation inside the transaction
(duplicate organization id or membership pair) aborts it, rolling both
inserts back, which the error branch models. -/
def createOrganization (db : Store) (callerId name slug newId : String)
    (now : Nat) : Except TRPCError (Store × Organization) :=
  match db.organizations.find? (fun o => o.slug == slug) with
  | some _ =>
    .error ⟨.CONFLICT, "Organization with this slug already exists"⟩
  | none =>
    if db.organizations.any (fun o => o.id == newId) then
      .error ⟨.CONFLICT, "Unique constraint failed on the organization id"⟩
    else if (findMembership db callerId newId).isSome then
      .error ⟨.CONFLICT, "Unique constraint failed on the membership pair"⟩
    else
      let organization : Organization := ⟨newId, name, slug⟩
      .ok ({ organizations := db.organizations ++ [organization],
             memberships := db.memberships ++
               [⟨callerId, newId, UserRole.ADMIN, now⟩] },
           organization)

/-- The ascending-creation-time order `orderBy: \x7b createdAt: "asc" \x7d`
sorts by. -/
def byCreatedAt (a b : UserOrganization) : Prop := a.createdAt ≤ b.createdAt

instance : DecidableRel byCreatedAt := fun a b => Nat.decLe a.createdAt b.createdAt

instance : IsTotal UserOrganization byCreatedAt := ⟨fun a b => Nat.le_total a.createdAt b.createdAt⟩

instance : IsTrans UserOrganization byCreatedAt := ⟨fun _ _ _ h h' => Nat.le_trans h h'⟩

/-- `db.userOrganization.findMany` filtered on the organization with
`orderBy createdAt asc`, as issued by `getMembers`. -/
def membersQuery (db : Store) (organizationId : String) : List UserOrganization :=
  (db.memberships.filter (fun m => m.organizationId == organizationId)).insertionSort
    byCreatedAt

/-- `organizationRouter.getMembers`: authorize the caller for
`member:view`, then return the organization's membership rows in ascending
creation-time order. -/
def getMembers (db : Store) (callerId organizationId : String) :
    Except TRPCError (List UserOrganization) := do
  let _ ← authorize db callerId organizationId (.single "member:view")
  .ok (membersQuery db organizationId)

/-- `db.userOrganization.findMany` filtered on the caller with
`orderBy createdAt asc`, as issued by `getUserOrganizations` before the
`map` to organization-plus-role. -/
def userOrganizationsQuery (db : Store) (userId : String) : List UserOrganization :=
  (db.memberships.filter (fun m => m.userId == userId)).insertionSort byCreatedAt

/-- `organizationRouter.getUserOrganizations`: the caller's membership
rows in ascending creation-time order, each mapped to its organization
(the `include`d relation) together with the membership's role. -/
def getUserOrganizations (db : Store) (userId : String) :
    List (Option Organization × UserRole) :=
  (userOrganizationsQuery db userId).map
    (fun uo => (db.organizations.find? (fun o => o.id == uo.organizationId), uo.role))

/-! ### Helper lemmas -/

/-- Every error `authorize` produces carries the FORBIDDEN code. -/
theorem authorize_error_forbidden (db : Store) (userId organizationId : String)
    (req : PermissionArg) (e : TRPCError)
    (h : authorize db userId organizationId req = .error e) :
    e.code = ErrorCode.FORBIDDEN := by
  unfold authorize at h
  cases hr : getUserRole db userId organizationId with
  | none => rw [hr] at h; injection h with h; rw [← h]
  | some r =>
    rw [hr] at h
    dsimp only at h
    split at h
    · exact absurd h (by simp)
    · injection h with h; rw [← h]

/-- Updating the role of the (userId, organizationId) row rewrites exactly
that row as seen through `findMembership`. -/
theorem findMembership_updateMembershipRole (db : Store)
    (userId organizationId : String) (role : UserRole) :
    findMembership (updateMembershipRole db userId organizationId role)
        userId organizationId =
      (findMembership db userId organizationId).map
        (fun m => { m with role := role }) := by
  unfold findMembership updateMembershipRole
  induction db.memberships with
  | nil => rfl
  | cons x xs ih =>
    by_cases hx : (x.userId == userId && x.organizationId == organizationId) = true
    · simp only [List.map_cons, List.find?_cons, hx, if_pos hx]
      have : ({ x with role := role } : UserOrganization).userId == userId &&
          ({ x with role := role } : UserOrganization).organizationId == organizationId := hx
      simp [this, hx]
    · simp only [List.map_cons, List.find?_cons, if_neg hx]
      have hx' : (x.userId == userId && x.organizationId == organizationId) = false :=
        Bool.not_eq_true _ ▸ eq_false_of_ne_true hx
      simp only [hx', cond_false]
      exact ih

/-- After deleting the (userId, organizationId) row, `findMembership` no
longer finds it. -/
theorem findMembership_deleteMembership (db : Store)
    (userId organizationId : String) :
    findMembership (deleteMembership db userId organizationId)
        userId organizationId = none := by
  unfold findMembership deleteMembership
  refine List.find?_eq_none.mpr ?_
  intro x hx
  have := (List.mem_filter.mp hx).2
  simp only [Bool.not_eq_true'] at this
  simp [this]

/-! ### Claim theorems -/

/-- C7: the role → permission table matches the spec matrix exactly:
ADMIN holds the full 18-token registry and MEMBER holds exactly
org:view, member:view, expense:create, expense:view_own,
expense:update_own, expense:delete_own and policy:view. -/
theorem c7_role_permission_matrix :
    getRolePermissions (some UserRole.ADMIN) = PERMISSIONS ∧
    PERMISSIONS.length = 18 ∧
    getRolePermissions (some UserRole.MEMBER) =
      [ "org:view", "member:view", "expense:create", "expense:view_own",
        "expense:update_own", "expense:delete_own", "policy:view" ] :=
  ⟨rfl, rfl, rfl⟩

/-- C8: `hasPermission` is total — on every role (including the undefined
role, modelled `none`) and every permission string it returns a boolean,
with the undefined role always yielding `false` — and ADMIN's permission
set contains MEMBER's. -/
theorem c8_hasPermission_total_and_admin_superset :
    (∀ (r : Option UserRole) (p : String),
        hasPermission r p = true ∨ hasPermission r p = false) ∧
    (∀ p : String, hasPermission none p = false) ∧
    (∀ p : String, hasPermission (some UserRole.MEMBER) p = true →
        hasPermission (some UserRole.ADMIN) p = true) := by
  refine ⟨fun r p => by cases h : hasPermission r p <;> simp, fun p => rfl, fun p h => ?_⟩
  simp only [hasPermission, List.contains_iff_exists_mem_beq] at h ⊢
  obtain ⟨a, ha, hb⟩ := h
  refine ⟨a, ?_, hb⟩
  revert ha
  simp [ROLE_PERMISSIONS]
  intro h
  rcases h with h|h|h|h|h|h|h <;> simp [h]

/-- Witness for C8 at a concrete permission held by MEMBER. -/
theorem c8_witness :
    hasPermission (some UserRole.MEMBER) "expense:create" = true ∧
    hasPermission (some UserRole.ADMIN) "expense:create" = true :=
  ⟨by decide, c8_hasPermission_total_and_admin_superset.2.2 "expense:create" (by decide)⟩

/-- C2: a caller with no membership row is rejected by `authorize` with
FORBIDDEN "You are not a member of this organization" whatever permission
argument is requested, while `getUserRoleInOrganization` for the same
caller fails with NOT_FOUND "User is not a member of this organization". -/
theorem c2_non_member_gate_vs_own_role (db : Store) (callerId organizationId : String)
    (h : findMembership db callerId organizationId = none) :
    (∀ req : PermissionArg,
        authorize db callerId organizationId req =
          .error ⟨.FORBIDDEN, "You are not a member of this organization"⟩) ∧
    getUserRoleInOrganization db callerId organizationId =
      .error ⟨.NOT_FOUND, "User is not a member of this organization"⟩ := by
  constructor
  · intro req
    unfold authorize getUserRole
    rw [h]
    rfl
  · unfold getUserRoleInOrganization
    rw [h]

/-- Witness for C2: the empty store, where no one is a member. -/
theorem c2_witness :
    authorize ⟨[], []⟩ "u3" "orgO" (.single "org:view") =
      .error ⟨.FORBIDDEN, "You are not a member of this organization"⟩ ∧
    getUserRoleInOrganization ⟨[], []⟩ "u3" "orgO" =
      .error ⟨.NOT_FOUND, "User is not a member of this organization"⟩ :=
  ⟨(c2_non_member_gate_vs_own_role ⟨[], []⟩ "u3" "orgO" rfl).1 (.single "org:view"),
   (c2_non_member_gate_vs_own_role ⟨[], []⟩ "u3" "orgO" rfl).2⟩

/-- C3: for a caller whose membership resolves to role `m.role` and a
non-empty permission list `ps`, `authorize` succeeds exactly when the role
holds at least one permission of `ps` (inclusive OR), and on success it
returns the resolved role. -/
theorem c3_authorize_any_semantics (db : Store) (callerId organizationId : String)
    (m : UserOrganization) (ps : List String)
    (hm : findMembership db callerId organizationId = some m) (hne : ps ≠ []) :
    ((∃ r, authorize db callerId organizationId (.list ps) = .ok r) ↔
      ps.any (fun p => hasPermission (some m.role) p) = true) ∧
    (ps.any (fun p => hasPermission (some m.role) p) = true →
      authorize db callerId organizationId (.list ps) = .ok m.role) := by
  have hrole : getUserRole db callerId organizationId = some m.role := by
    unfold getUserRole; rw [hm]; rfl
  unfold authorize
  rw [hrole]
  dsimp only [PermissionArg.toList]
  by_cases hp : ps.any (fun p => hasPermission (some m.role) p) = true
  · rw [if_pos hp]
    exact ⟨⟨fun _ => hp, fun _ => ⟨m.role, rfl⟩⟩, fun _ => rfl⟩
  · rw [if_neg hp]
    refine ⟨⟨fun ⟨r, hr⟩ => absurd hr (by simp), fun h => absurd h hp⟩,
      fun h => absurd h hp⟩

/-- Witness for C3: a one-member store, requesting a list in which the
MEMBER role holds one of the two permissions. -/
theorem c3_witness :
    authorize ⟨[], [⟨"u1", "orgO", UserRole.MEMBER, 0⟩]⟩ "u1" "orgO"
        (.list ["org:update", "org:view"]) = .ok UserRole.MEMBER :=
  (c3_authorize_any_semantics ⟨[], [⟨"u1", "orgO", UserRole.MEMBER, 0⟩]⟩ "u1" "orgO"
      ⟨"u1", "orgO", UserRole.MEMBER, 0⟩ ["org:update", "org:view"] rfl
      (by decide)).2 (by decide)

/-- C4: when the actor passes authorization but the target
(userId, organizationId) membership does not exist, both mutations fail
with NOT_FOUND "User is not a member of this organization" (and, being
errors, return no modified store: no row is created, changed or
deleted). -/
theorem c4_target_not_found (db : Store) (actorId targetId organizationId : String)
    (newRole : UserRole) (r1 r2 : UserRole)
    (h1 : authorize db actorId organizationId (.single "member:update_role") = .ok r1)
    (h2 : authorize db actorId organizationId (.single "member:remove") = .ok r2)
    (hT : findMembership db targetId organizationId = none) :
    updateUserRole db actorId targetId organizationId newRole =
      .error ⟨.NOT_FOUND, "User is not a member of this organization"⟩ ∧
    removeUserFromOrganization db actorId targetId organizationId =
      .error ⟨.NOT_FOUND, "User is not a member of this organization"⟩ := by
  constructor
  · unfold updateUserRole
    rw [h1]
    simp only [hT]
    rfl
  · unfold removeUserFromOrganization
    rw [h2]
    simp only [hT]
    rfl

/-- Witness for C4: one-admin store, admin targets a non-member. -/
theorem c4_witness :
    updateUserRole ⟨[], [⟨"a", "orgO", UserRole.ADMIN, 0⟩]⟩ "a" "b" "orgO" UserRole.MEMBER =
      .error ⟨.NOT_FOUND, "User is not a member of this organization"⟩ ∧
    removeUserFromOrganization ⟨[], [⟨"a", "orgO", UserRole.ADMIN, 0⟩]⟩ "a" "b" "orgO" =
      .error ⟨.NOT_FOUND, "User is not a member of this organization"⟩ :=
  c4_target_not_found ⟨[], [⟨"a", "orgO", UserRole.ADMIN, 0⟩]⟩ "a" "b" "orgO"
    UserRole.MEMBER UserRole.ADMIN UserRole.ADMIN rfl rfl rfl

/-- C10: in both mutations the actor's authorization is evaluated before
the target lookup — an `authorize` failure (the actor is not a member or
lacks the permission) propagates unchanged, carries the FORBIDDEN code,
and so preempts the target NOT_FOUND error whatever the state of the
target membership or of the organization itself. -/
theorem c10_authorize_before_target_lookup (db : Store)
    (actorId targetId organizationId : String) (newRole : UserRole)
    (e1 e2 : TRPCError)
    (h1 : authorize db actorId organizationId (.single "member:update_role") = .error e1)
    (h2 : authorize db actorId organizationId (.single "member:remove") = .error e2) :
    updateUserRole db actorId targetId organizationId newRole = .error e1 ∧
    e1.code = ErrorCode.FORBIDDEN ∧
    removeUserFromOrganization db actorId targetId organizationId = .error e2 ∧
    e2.code = ErrorCode.FORBIDDEN := by
  refine ⟨?_, authorize_error_forbidden _ _ _ _ _ h1, ?_,
    authorize_error_forbidden _ _ _ _ _ h2⟩
  · unfold updateUserRole
    rw [h1]
    rfl
  · unfold removeUserFromOrganization
    rw [h2]
    rfl

/-- Witness for C10: the empty store (the organization does not even
exist, and neither actor nor target has any membership). -/
theorem c10_witness :
    updateUserRole ⟨[], []⟩ "a" "b" "orgO" UserRole.MEMBER =
      .error ⟨.FORBIDDEN, "You are not a member of this organization"⟩ ∧
    removeUserFromOrganization ⟨[], []⟩ "a" "b" "orgO" =
      .error ⟨.FORBIDDEN, "You are not a member of this organization"⟩ :=
  ⟨(c10_authorize_before_target_lookup ⟨[], []⟩ "a" "b" "orgO" UserRole.MEMBER
      ⟨.FORBIDDEN, "You are not a member of this organization"⟩
      ⟨.FORBIDDEN, "You are not a member of this organization"⟩
      rfl rfl).1,
   (c10_authorize_before_target_lookup ⟨[], []⟩ "a" "b" "orgO" UserRole.MEMBER
      ⟨.FORBIDDEN, "You are not a member of this organization"⟩
      ⟨.FORBIDDEN, "You are not a member of this organization"⟩
      rfl rfl).2.2.1⟩

/-- C1: in an organization with exactly one ADMIN membership, demoting
that sole admin (`updateUserRole` to a non-ADMIN role) and removing them
(`removeUserFromOrganization`) both fail with FORBIDDEN "Cannot remove the
last admin from an organization" — the actor being the target included,
since no part of the statement separates the two — and the error result
carries no modified store.  Once at least two ADMIN memberships exist,
both operations on an admin target succeed: the role is updated,
respectively the membership row is deleted. -/
theorem c1_last_admin_invariant :
    (∀ (db : Store) (actorId targetId organizationId : String)
        (newRole r : UserRole) (m : UserOrganization),
      authorize db actorId organizationId (.single "member:update_role") = .ok r →
      findMembership db targetId organizationId = some m →
      m.role = UserRole.ADMIN → newRole ≠ UserRole.ADMIN →
      countAdmins db organizationId = 1 →
      updateUserRole db actorId targetId organizationId newRole =
        .error ⟨.FORBIDDEN, "Cannot remove the last admin from an organization"⟩) ∧
    (∀ (db : Store) (actorId targetId organizationId : String)
        (r : UserRole) (m : UserOrganization),
      authorize db actorId organizationId (.single "member:remove") = .ok r →
      findMembership db targetId organizationId = some m →
      m.role = UserRole.ADMIN →
      countAdmins db organizationId = 1 →
      removeUserFromOrganization db actorId targetId organizationId =
        .error ⟨.FORBIDDEN, "Cannot remove the last admin from an organization"⟩) ∧
    (∀ (db : Store) (actorId targetId organizationId : String)
        (newRole r : UserRole) (m : UserOrganization),
      authorize db actorId organizationId (.single "member:update_role") = .ok r →
      findMembership db targetId organizationId = some m →
      m.role = UserRole.ADMIN →
      2 ≤ countAdmins db organizationId →
      updateUserRole db actorId targetId organizationId newRole =
        .ok (updateMembershipRole db targetId organizationId newRole,
             { m with role := newRole }) ∧
      findMembership (updateMembershipRole db targetId organizationId newRole)
          targetId organizationId = some { m with role := newRole }) ∧
    (∀ (db : Store) (actorId targetId organizationId : String)
        (r : UserRole) (m : UserOrganization),
      authorize db actorId organizationId (.single "member:remove") = .ok r →
      findMembership db targetId organizationId = some m →
      m.role = UserRole.ADMIN →
      2 ≤ countAdmins db organizationId →
      removeUserFromOrganization db actorId targetId organizationId =
        .ok (deleteMembership db targetId organizationId) ∧
      findMembership (deleteMembership db targetId organizationId)
          targetId organizationId = none) := by
  refine ⟨?_, ?_, ?_, ?_⟩
  · intro db actorId targetId organizationId newRole r m hauth hfind hrole hne hcount
    unfold updateUserRole
    rw [hauth]
    simp only [hfind, hrole, hcount]
    simp [hne]
    rfl
  · intro db actorId targetId organizationId r m hauth hfind hrole hcount
    unfold removeUserFromOrganization
    rw [hauth]
    simp only [hfind, hrole, hcount]
    simp only [beq_self_eq_true]
    rfl
  · intro db actorId targetId organizationId newRole r m hauth hfind hrole hcount
    have hc : ¬ (countAdmins db organizationId ≤ 1) := by omega
    refine ⟨?_, by rw [findMembership_updateMembershipRole, hfind]; rfl⟩
    unfold updateUserRole
    rw [hauth]
    simp only [hfind, hrole]
    by_cases hnr : newRole = UserRole.ADMIN
    · simp only [hnr]
      rfl
    · simp only [hnr, hc]
      simp [hnr, hc]
      rfl
  · intro db actorId targetId organizationId r m hauth hfind hrole hcount
    have hc : ¬ (countAdmins db organizationId ≤ 1) := by omega
    refine ⟨?_, findMembership_deleteMembership db targetId organizationId⟩
    unfold removeUserFromOrganization
    rw [hauth]
    simp only [hfind, hrole]
    simp [hc]
    rfl

/-- Witness for C1: a one-admin organization where the sole admin's
self-demotion and self-removal fail, and a two-admin organization where
demoting one admin and removing the other both succeed. -/
theorem c1_witness :
    updateUserRole ⟨[⟨"orgO", "Acme", "acme"⟩], [⟨"a", "orgO", UserRole.ADMIN, 0⟩]⟩
        "a" "a" "orgO" UserRole.MEMBER =
      .error ⟨.FORBIDDEN, "Cannot remove the last admin from an organization"⟩ ∧
    removeUserFromOrganization
        ⟨[⟨"orgO", "Acme", "acme"⟩], [⟨"a", "orgO", UserRole.ADMIN, 0⟩]⟩
        "a" "a" "orgO" =
      .error ⟨.FORBIDDEN, "Cannot remove the last admin from an organization"⟩ ∧
    (updateUserRole
        ⟨[⟨"orgO", "Acme", "acme"⟩],
         [⟨"a", "orgO", UserRole.ADMIN, 0⟩, ⟨"b", "orgO", UserRole.ADMIN, 1⟩]⟩
        "a" "a" "orgO" UserRole.MEMBER =
      .ok (updateMembershipRole
            ⟨[⟨"orgO", "Acme", "acme"⟩],
             [⟨"a", "orgO", UserRole.ADMIN, 0⟩, ⟨"b", "orgO", UserRole.ADMIN, 1⟩]⟩
            "a" "orgO" UserRole.MEMBER,
           ⟨"a", "orgO", UserRole.MEMBER, 0⟩) ∧
     findMembership
        (updateMembershipRole
          ⟨[⟨"orgO", "Acme", "acme"⟩],
           [⟨"a", "orgO", UserRole.ADMIN, 0⟩, ⟨"b", "orgO", UserRole.ADMIN, 1⟩]⟩
          "a" "orgO" UserRole.MEMBER) "a" "orgO" =
       some ⟨"a", "orgO", UserRole.MEMBER, 0⟩) ∧
    (removeUserFromOrganization
        ⟨[⟨"orgO", "Acme", "acme"⟩],
         [⟨"a", "orgO", UserRole.ADMIN, 0⟩, ⟨"b", "orgO", UserRole.ADMIN, 1⟩]⟩
        "a" "b" "orgO" =
      .ok (deleteMembership
            ⟨[⟨"orgO", "Acme", "acme"⟩],
             [⟨"a", "orgO", UserRole.ADMIN, 0⟩, ⟨"b", "orgO", UserRole.ADMIN, 1⟩]⟩
            "b" "orgO") ∧
     findMembership
        (deleteMembership
          ⟨[⟨"orgO", "Acme", "acme"⟩],
           [⟨"a", "orgO", UserRole.ADMIN, 0⟩, ⟨"b", "orgO", UserRole.ADMIN, 1⟩]⟩
          "b" "orgO") "b" "orgO" = none) :=
  ⟨c1_last_admin_invariant.1 _ "a" "a" "orgO" UserRole.MEMBER UserRole.ADMIN
      ⟨"a", "orgO", UserRole.ADMIN, 0⟩ rfl rfl rfl (by decide) rfl,
   c1_last_admin_invariant.2.1 _ "a" "a" "orgO" UserRole.ADMIN
      ⟨"a", "orgO", UserRole.ADMIN, 0⟩ rfl rfl rfl rfl,
   c1_last_admin_invariant.2.2.1 _ "a" "a" "orgO" UserRole.MEMBER UserRole.ADMIN
      ⟨"a", "orgO", UserRole.ADMIN, 0⟩ rfl rfl rfl (by decide),
   c1_last_admin_invariant.2.2.2 _ "a" "b" "orgO" UserRole.ADMIN
      ⟨"b", "orgO", UserRole.ADMIN, 1⟩ rfl rfl rfl (by decide)⟩

/-- If some stored organization already carries the slug,
`createOrganization` fails with the slug-conflict error. -/
theorem createOrganization_slug_taken (db : Store)
    (callerId name slug newId : String) (now : Nat) (o : Organization)
    (ho : o ∈ db.organizations) (hs : o.slug = slug) :
    createOrganization db callerId name slug newId now =
      .error ⟨.CONFLICT, "Organization with this slug already exists"⟩ := by
  unfold createOrganization
  cases hfind : db.organizations.find? (fun x => x.slug == slug) with
  | some _ => rfl
  | none =>
    exact absurd (List.find?_eq_none.mp hfind o ho) (by simp [hs])

/-- C5: every execution of `createOrganization` ends in one of two states:
an error with the store untouched (the error branch carries no store), or
success with the new organization present and its founder holding an
ADMIN membership in it — never an organization without members. -/
theorem c5_atomic_org_creation (db : Store) (callerId name slug newId : String)
    (now : Nat) :
    (∃ e, createOrganization db callerId name slug newId now = .error e) ∨
    (∃ (db' : Store) (org : Organization),
      createOrganization db callerId name slug newId now = .ok (db', org) ∧
      org ∈ db'.organizations ∧
      getUserRole db' callerId org.id = some UserRole.ADMIN) := by
  unfold createOrganization
  cases hs : db.organizations.find? (fun o => o.slug == slug) with
  | some o => exact .inl ⟨_, rfl⟩
  | none =>
    by_cases hid : db.organizations.any (fun o => o.id == newId) = true
    · rw [if_pos hid]; exact .inl ⟨_, rfl⟩
    · rw [if_neg hid]
      by_cases hpair : (findMembership db callerId newId).isSome = true
      · rw [if_pos hpair]; exact .inl ⟨_, rfl⟩
      · rw [if_neg hpair]
        refine .inr ⟨_, _, rfl, by simp, ?_⟩
        have h1 : findMembership db callerId newId = none := by
          cases h : findMembership db callerId newId with
          | none => rfl
          | some _ => rw [h] at hpair; simp at hpair
        unfold getUserRole findMembership
        unfold findMembership at h1
        dsimp only
        rw [List.find?_append, h1]
        simp

/-- C6: a `createOrganization` call against a store that already holds an
organization with the requested slug fails CONFLICT "Organization with
this slug already exists" with the store untouched; and after a first
successful call for a slug, a second call for the same slug fails with
that CONFLICT error. -/
theorem c6_slug_conflict :
    (∀ (db : Store) (callerId name slug newId : String) (now : Nat)
        (o : Organization),
      o ∈ db.organizations → o.slug = slug →
      createOrganization db callerId name slug newId now =
        .error ⟨.CONFLICT, "Organization with this slug already exists"⟩) ∧
    (∀ (db : Store) (u1 n1 slug id1 : String) (t1 : Nat) (db1 : Store)
        (org : Organization) (u2 n2 id2 : String) (t2 : Nat),
      createOrganization db u1 n1 slug id1 t1 = .ok (db1, org) →
      createOrganization db1 u2 n2 slug id2 t2 =
        .error ⟨.CONFLICT, "Organization with this slug already exists"⟩) := by
  refine ⟨fun db callerId name slug newId now o ho hs =>
    createOrganization_slug_taken db callerId name slug newId now o ho hs, ?_⟩
  intro db u1 n1 slug id1 t1 db1 org u2 n2 id2 t2 h
  unfold createOrganization at h
  cases hs : db.organizations.find? (fun o => o.slug == slug) with
  | some o => rw [hs] at h; exact absurd h (by simp)
  | none =>
    rw [hs] at h
    by_cases hid : db.organizations.any (fun o => o.id == id1) = true
    · rw [if_pos hid] at h; exact absurd h (by simp)
    · rw [if_neg hid] at h
      by_cases hpair : (findMembership db u1 id1).isSome = true
      · rw [if_pos hpair] at h; exact absurd h (by simp)
      · rw [if_neg hpair] at h
        injection h with h
        injection h with hdb horg
        refine createOrganization_slug_taken db1 u2 n2 slug id2 t2
          ⟨id1, n1, slug⟩ ?_ rfl
        rw [← hdb]
        simp

/-- Witness for C6: create "acme" on the empty store, then try the same
slug again. -/
theorem c6_witness :
    createOrganization ⟨[], []⟩ "u1" "Acme" "acme" "o1" 0 =
      .ok (⟨[⟨"o1", "Acme", "acme"⟩], [⟨"u1", "o1", UserRole.ADMIN, 0⟩]⟩,
           ⟨"o1", "Acme", "acme"⟩) ∧
    createOrganization ⟨[⟨"o1", "Acme", "acme"⟩], [⟨"u1", "o1", UserRole.ADMIN, 0⟩]⟩
        "u2" "Other" "acme" "o2" 1 =
      .error ⟨.CONFLICT, "Organization with this slug already exists"⟩ :=
  ⟨rfl,
   c6_slug_conflict.2 ⟨[], []⟩ "u1" "Acme" "acme" "o1" 0
     ⟨[⟨"o1", "Acme", "acme"⟩], [⟨"u1", "o1", UserRole.ADMIN, 0⟩]⟩
     ⟨"o1", "Acme", "acme"⟩ "u2" "Other" "o2" 1 rfl⟩

/-- C9: `getMembers` (on success) and the row list behind
`getUserOrganizations` come back sorted by creation time ascending, and
repeated calls against an unchanged store return the same sequence. -/
theorem c9_ordering :
    (∀ (db : Store) (callerId organizationId : String)
        (l : List UserOrganization),
      getMembers db callerId organizationId = .ok l → l.Sorted byCreatedAt) ∧
    (∀ (db : Store) (userId : String),
      (userOrganizationsQuery db userId).Sorted byCreatedAt) ∧
    (∀ (db db' : Store) (callerId organizationId : String), db = db' →
      getMembers db callerId organizationId =
        getMembers db' callerId organizationId) ∧
    (∀ (db db' : Store) (userId : String), db = db' →
      getUserOrganizations db userId = getUserOrganizations db' userId) := by
  refine ⟨?_, ?_, fun db db' a b h => by rw [h], fun db db' u h => by rw [h]⟩
  · intro db callerId organizationId l h
    unfold getMembers at h
    cases ha : authorize db callerId organizationId (.single "member:view") with
    | error e => rw [ha] at h; exact absurd h (by simp [Bind.bind, Except.bind])
    | ok r =>
      rw [ha] at h
      have : membersQuery db organizationId = l := by
        have := h
        simpa [Bind.bind, Except.bind] using this
      rw [← this]
      exact List.sorted_insertionSort byCreatedAt _
  · intro db userId
    exact List.sorted_insertionSort byCreatedAt _

/-- Witness for C9: a store whose membership table is out of creation
order comes back sorted. -/
theorem c9_witness :
    getMembers ⟨[⟨"orgO", "Acme", "acme"⟩],
        [⟨"b", "orgO", UserRole.MEMBER, 5⟩, ⟨"a", "orgO", UserRole.ADMIN, 2⟩]⟩
        "a" "orgO" =
      .ok [⟨"a", "orgO", UserRole.ADMIN, 2⟩, ⟨"b", "orgO", UserRole.MEMBER, 5⟩] ∧
    List.Sorted byCreatedAt
      [(⟨"a", "orgO", UserRole.ADMIN, 2⟩ : UserOrganization),
       ⟨"b", "orgO", UserRole.MEMBER, 5⟩] :=
  ⟨rfl,
   c9_ordering.1 ⟨[⟨"orgO", "Acme", "acme"⟩],
       [⟨"b", "orgO", UserRole.MEMBER, 5⟩, ⟨"a", "orgO", UserRole.ADMIN, 2⟩]⟩
     "a" "orgO"
     [⟨"a", "orgO", UserRole.ADMIN, 2⟩, ⟨"b", "orgO", UserRole.MEMBER, 5⟩] rfl⟩
